import Mathlib

/-!
Shallow embedding of the two Python source files of `EA_trade_mt5`:

* `src/fetch_ohlcv.py`   — one-shot fetcher `fetch_ohlcv_mt5`, CSV sink
  `export_csv`, and the bar-close watcher `watch_and_export_on_close`
  (seed phase + per-timeframe poll step of the polling loop).
* `src/fetch_mt5_ohlcv.py` — fetcher `fetch_ohlcv`, CSV sink
  `export_to_csv`, and the polling monitor `monitor_timeframes`
  (per-timeframe poll step of the polling loop).

Python strings are modelled as lists of code points (`List Nat`); `str.upper`
and `str.strip` are modelled by their behaviour on the ASCII range (identity
elsewhere), which covers every key of the timeframe tables.  Candle prices
pass through the code untouched, so they are embedded as integers; `time`
fields are epoch seconds (`Nat`).  Timezone rendering (`format_time` /
`tz_convert`) is an opaque external library from the spec's point of view and
is threaded through the CSV sinks as an explicit function `fmt : Nat → String`.
A CSV file on disk is a list of rows, each row a list of cell strings.
-/

/-! ## Python string model -/

/-- Code points of a Lean string literal, for writing concrete Python strings. -/
def pyCodes (s : String) : List Nat := s.data.map Char.toNat

/-- `str.upper` on one code point: ASCII lowercase letters are shifted to
uppercase, everything else is unchanged. -/
def upperChar (n : Nat) : Nat := if 97 ≤ n ∧ n ≤ 122 then n - 32 else n

/-- `str.upper` on a whole string. -/
def py_upper (s : List Nat) : List Nat := s.map upperChar

/-- Python `str.strip` whitespace test (space, \t, \n, \r, \f, \v). -/
def isPySpace (n : Nat) : Bool :=
  decide (n = 32 ∨ n = 9 ∨ n = 10 ∨ n = 13 ∨ n = 12 ∨ n = 11)

/-- `str.strip`: drop whitespace from both ends. -/
def py_strip (s : List Nat) : List Nat :=
  ((s.dropWhile isPySpace).reverse.dropWhile isPySpace).reverse

/-! ## MetaTrader 5 timeframe constants (values of the `MetaTrader5` package) -/

def TIMEFRAME_M1 : Nat := 1
def TIMEFRAME_M2 : Nat := 2
def TIMEFRAME_M3 : Nat := 3
def TIMEFRAME_M4 : Nat := 4
def TIMEFRAME_M5 : Nat := 5
def TIMEFRAME_M6 : Nat := 6
def TIMEFRAME_M10 : Nat := 10
def TIMEFRAME_M12 : Nat := 12
def TIMEFRAME_M15 : Nat := 15
def TIMEFRAME_M20 : Nat := 20
def TIMEFRAME_M30 : Nat := 30
def TIMEFRAME_H1 : Nat := 16385
def TIMEFRAME_H2 : Nat := 16386
def TIMEFRAME_H3 : Nat := 16387
def TIMEFRAME_H4 : Nat := 16388
def TIMEFRAME_H6 : Nat := 16390
def TIMEFRAME_H8 : Nat := 16392
def TIMEFRAME_H12 : Nat := 16396
def TIMEFRAME_D1 : Nat := 16408
def TIMEFRAME_W1 : Nat := 32769
def TIMEFRAME_MN1 : Nat := 49153

/-- `TIMEFRAME_ALIASES` of `src/fetch_mt5_ohlcv.py` (lines 26–48): canonical
codes only, keyed by the upper-case spelling. -/
def TIMEFRAME_ALIASES : List (List Nat × Nat) :=
  [ (pyCodes "M1", TIMEFRAME_M1), (pyCodes "M2", TIMEFRAME_M2),
    (pyCodes "M3", TIMEFRAME_M3), (pyCodes "M4", TIMEFRAME_M4),
    (pyCodes "M5", TIMEFRAME_M5), (pyCodes "M6", TIMEFRAME_M6),
    (pyCodes "M10", TIMEFRAME_M10), (pyCodes "M12", TIMEFRAME_M12),
    (pyCodes "M15", TIMEFRAME_M15), (pyCodes "M20", TIMEFRAME_M20),
    (pyCodes "M30", TIMEFRAME_M30),
    (pyCodes "H1", TIMEFRAME_H1), (pyCodes "H2", TIMEFRAME_H2),
    (pyCodes "H3", TIMEFRAME_H3), (pyCodes "H4", TIMEFRAME_H4),
    (pyCodes "H6", TIMEFRAME_H6), (pyCodes "H8", TIMEFRAME_H8),
    (pyCodes "H12", TIMEFRAME_H12),
    (pyCodes "D1", TIMEFRAME_D1), (pyCodes "W1", TIMEFRAME_W1),
    (pyCodes "MN1", TIMEFRAME_MN1) ]

/-- `resolve_timeframe` of `src/fetch_mt5_ohlcv.py` (lines 64–86):
`TIMEFRAME_ALIASES[timeframe.upper()]`; a missing key raises `ValueError`,
modelled as `none`. -/
def resolve_timeframe (timeframe : List Nat) : Option Nat :=
  TIMEFRAME_ALIASES.lookup (py_upper timeframe)

/-- The `MAP` table of `timeframe_to_mt5` in `src/fetch_ohlcv.py`
(lines 47–66): both canonical and reversed spellings. -/
def TIMEFRAME_MAP : List (List Nat × Nat) :=
  [ (pyCodes "M1", TIMEFRAME_M1), (pyCodes "1M", TIMEFRAME_M1),
    (pyCodes "M2", TIMEFRAME_M2), (pyCodes "2M", TIMEFRAME_M2),
    (pyCodes "M3", TIMEFRAME_M3), (pyCodes "3M", TIMEFRAME_M3),
    (pyCodes "M4", TIMEFRAME_M4), (pyCodes "4M", TIMEFRAME_M4),
    (pyCodes "M5", TIMEFRAME_M5), (pyCodes "5M", TIMEFRAME_M5),
    (pyCodes "M10", TIMEFRAME_M10), (pyCodes "10M", TIMEFRAME_M10),
    (pyCodes "M15", TIMEFRAME_M15), (pyCodes "15M", TIMEFRAME_M15),
    (pyCodes "M30", TIMEFRAME_M30), (pyCodes "30M", TIMEFRAME_M30),
    (pyCodes "H1", TIMEFRAME_H1), (pyCodes "1H", TIMEFRAME_H1),
    (pyCodes "60M", TIMEFRAME_H1),
    (pyCodes "H2", TIMEFRAME_H2), (pyCodes "2H", TIMEFRAME_H2),
    (pyCodes "H3", TIMEFRAME_H3), (pyCodes "3H", TIMEFRAME_H3),
    (pyCodes "H4", TIMEFRAME_H4), (pyCodes "4H", TIMEFRAME_H4),
    (pyCodes "H6", TIMEFRAME_H6), (pyCodes "6H", TIMEFRAME_H6),
    (pyCodes "H8", TIMEFRAME_H8), (pyCodes "8H", TIMEFRAME_H8),
    (pyCodes "H12", TIMEFRAME_H12), (pyCodes "12H", TIMEFRAME_H12),
    (pyCodes "D1", TIMEFRAME_D1), (pyCodes "1D", TIMEFRAME_D1),
    (pyCodes "W1", TIMEFRAME_W1), (pyCodes "1W", TIMEFRAME_W1),
    (pyCodes "MN1", TIMEFRAME_MN1), (pyCodes "1MN", TIMEFRAME_MN1) ]

/-- `timeframe_to_mt5` of `src/fetch_ohlcv.py` (lines 44–69):
`tf = str(tf).strip().upper()` then a lookup in `MAP`; a missing key raises
`ValueError`, modelled as `none`. -/
def timeframe_to_mt5 (tf : List Nat) : Option Nat :=
  TIMEFRAME_MAP.lookup (py_upper (py_strip tf))

example : resolve_timeframe (pyCodes "h4") = some TIMEFRAME_H4 := by decide
example : resolve_timeframe (pyCodes " H4") = none := by decide
example : timeframe_to_mt5 (pyCodes " 1h ") = some TIMEFRAME_H1 := by decide
example : timeframe_to_mt5 (pyCodes "XX") = none := by decide

/-! ## Candle records and CSV files -/

/-- One OHLCV record as produced by `copy_rates_from_pos` and passed through
both scripts unchanged (`time` is epoch seconds UTC; prices are carried
through without arithmetic, so they are embedded as integers). -/
structure Candle where
  time : Nat
  open_ : Int
  high : Int
  low : Int
  close : Int
  tick_volume : Nat
  spread : Nat
  real_volume : Nat
  deriving DecidableEq, Repr

def candle0 : Candle := ⟨0, 0, 0, 0, 0, 0, 0, 0⟩

/-- `records[-1]["time"]` / `rates[-1]["time"]`: the open time of the last
candle of a batch (used only on non-empty batches in the source). -/
def latestTime (l : List Candle) : Nat := (l.getLastD candle0).time

/-- A CSV file on disk: a list of rows, each row a list of cell strings. -/
abbrev CsvFile := List (List String)

/-! ### `src/fetch_mt5_ohlcv.py` CSV sink -/

/-- The header row written by `export_to_csv` (lines 161–172):
time, open, high, low, close, tick_volume, spread, real_volume. -/
def HEADER_MT5 : List String :=
  ["time", "open", "high", "low", "close", "tick_volume", "spread", "real_volume"]

/-- One data row of `export_to_csv` (lines 173–185): the `time` cell goes
through `format_time` (timezone rendering, threaded in as `fmt`), the other
cells are the record's fields in the header's order. -/
def csvRowMT5 (fmt : Nat → String) (r : Candle) : List String :=
  [fmt r.time, toString r.open_, toString r.high, toString r.low, toString r.close,
   toString r.tick_volume, toString r.spread, toString r.real_volume]

/-- `export_to_csv` (lines 155–185): opens `filepath` with mode `"w"`
(truncating whatever was there — the old content `old` does not influence the
result) and writes the header row followed by one row per record. -/
def export_to_csv (fmt : Nat → String) (old : Option CsvFile)
    (records : List Candle) : CsvFile :=
  match old with
  | _ => HEADER_MT5 :: records.map (csvRowMT5 fmt)

/-- `export_to_csv` interrupted by an I/O failure after `k` data rows were
written: the file was opened with mode `"w"` (truncated first), the header and
the first `k` rows have been streamed into it, and no temporary file or rename
protects the old content `old`. -/
def export_to_csv_fail (fmt : Nat → String) (old : Option CsvFile)
    (records : List Candle) (k : Nat) : CsvFile :=
  match old with
  | _ => HEADER_MT5 :: (records.take k).map (csvRowMT5 fmt)

/-! ### `src/fetch_ohlcv.py` CSV sink -/

/-- Column order of the DataFrames passed to `export_csv`: both
`fetch_ohlcv_mt5` (line 163) and the append path of
`watch_and_export_on_close` (line 285) select
`["time","open","high","low","close","tick_volume","real_volume","spread"]`,
so `df.to_csv` emits this header (note: real_volume before spread). -/
def HEADER_FO : List String :=
  ["time", "open", "high", "low", "close", "tick_volume", "real_volume", "spread"]

/-- One data row of `df.to_csv` for the column order above; the `time` cell
carries the timezone-rendered timestamp (`fmt`). -/
def csvRowFO (fmt : Nat → String) (r : Candle) : List String :=
  [fmt r.time, toString r.open_, toString r.high, toString r.low, toString r.close,
   toString r.tick_volume, toString r.real_volume, toString r.spread]

/-- `export_csv` of `src/fetch_ohlcv.py` (lines 169–179): if `append` is
requested but the file does not exist (`old = none`), `append` is reset to
`False`; a non-append write is `df.to_csv(filepath, index=False)` (header plus
rows, replacing the old content), an append write is
`df.to_csv(filepath, mode="a", header=False, index=False)` (the old rows
followed by the new data rows, no header re-emitted). -/
def export_csv (fmt : Nat → String) (old : Option CsvFile)
    (df : List Candle) (append : Bool) : CsvFile :=
  match old, append with
  | none, _ => HEADER_FO :: df.map (csvRowFO fmt)
  | some _, false => HEADER_FO :: df.map (csvRowFO fmt)
  | some c, true => c ++ df.map (csvRowFO fmt)

/-- `df.to_csv(filepath, index=False)` interrupted after `k` data rows: the
target was opened for truncating write, so the old content is gone and only
the header plus `k` rows remain (no temporary file or rename is used). -/
def export_csv_fail (fmt : Nat → String) (old : Option CsvFile)
    (df : List Candle) (k : Nat) : CsvFile :=
  match old with
  | _ => HEADER_FO :: (df.take k).map (csvRowFO fmt)

/-! ## `monitor_timeframes` (src/fetch_mt5_ohlcv.py, lines 188–217)

The loop body for one timeframe `tf` is modelled as a step function on the
per-timeframe slice of the loop state.  `writeOk` models whether the
`export_to_csv` call returns normally (`true`) or raises an I/O error
(`false`); the returned `Bool` is `true` when the step aborted with an
exception (which terminates the whole loop in the source). -/

/-- Per-timeframe slice of the `monitor_timeframes` loop state, plus counters
for the observable effects (CSV writes performed, notifications printed). -/
structure MonState where
  last_times : Option Nat
  file : Option CsvFile
  writes : Nat
  notifs : Nat
  deriving Repr

/-- One iteration of the inner `for tf in config.timeframes` body
(lines 195–211) for a fixed timeframe, given the batch `records` returned by
`fetch_ohlcv`:
* `if not records: continue`;
* `last_record_time = records[-1]["time"]`;
* `if last_times.get(tf) == last_record_time: continue`;
* `last_times[tf] = last_record_time` — the watermark moves *before* the write;
* `export_to_csv(records, ...)` then the `print` notification. -/
def monitor_timeframes_step (fmt : Nat → String) (writeOk : Bool)
    (s : MonState) (records : List Candle) : MonState × Bool :=
  if records = [] then (s, false)
  else
    let last_record_time := latestTime records
    if s.last_times = some last_record_time then (s, false)
    else
      let s' := { s with last_times := some last_record_time }
      if writeOk then
        ({ s' with file := some (export_to_csv fmt s.file records),
                   writes := s.writes + 1,
                   notifs := s.notifs + 1 }, false)
      else (s', true)

/-- The `monitor_timeframes` loop for one timeframe across a run of ticks,
driven by the list of batches that `fetch_ohlcv` returns on each tick
(all writes succeeding). -/
def monitor_timeframes_run (fmt : Nat → String) (s : MonState)
    (batches : List (List Candle)) : MonState :=
  batches.foldl (fun s b => (monitor_timeframes_step fmt true s b).1) s

/-! ## `watch_and_export_on_close` (src/fetch_ohlcv.py, lines 205–296) -/

/-- Result of the per-timeframe startup phase (lines 222–240). -/
structure SeedResult where
  file : CsvFile
  full_exports : Nat
  notifs : Nat
  last_closed_time : Nat
  deriving Repr

/-- Startup for one timeframe (lines 222–240): if the output file does not
exist (`existing = none`), fetch `bars_to_keep` candles (`df0`) and
`export_csv(df0, path, append=False)` — with no `print` notification; then
seed `last_closed_time[tf]` from a fresh 2-bar UTC fetch (`seedBatch`),
taking `df["time"].iloc[-1]`. -/
def watch_and_export_on_close_seed (fmt : Nat → String)
    (existing : Option CsvFile) (df0 seedBatch : List Candle) : SeedResult :=
  match existing with
  | none =>
      { file := export_csv fmt none df0 false,
        full_exports := 1,
        notifs := 0,
        last_closed_time := latestTime seedBatch }
  | some c =>
      { file := c,
        full_exports := 0,
        notifs := 0,
        last_closed_time := latestTime seedBatch }

/-- Per-timeframe slice of the `watch_and_export_on_close` polling state. -/
structure WatchState where
  last_closed_time : Nat
  file : CsvFile
  writes : Nat
  notifs : Nat
  deriving Repr

/-- One iteration of the `for tf in timeframes` body inside `while True`
(lines 245–289) for a fixed timeframe.  Inputs: `rates`, the 2-bar batch from
`copy_rates_from_pos` (`[]` models a `None` return), and `refreshBatch`, the
`bars_to_keep`-bar batch that `fetch_ohlcv_mt5` would return if the
full-refresh branch fetches it.  Steps:
* `if rates is None or len(rates) < 2: continue`;
* `latest_closed_utc = rates[-1]["time"]`;
* `if latest_closed_utc > last_closed_time[tf]:` —
  full refresh: `export_csv(df, path, append=False)`;
  else append: `export_csv(row, path, append=True)` with `row = rates[-1]`;
  then the `print` notification, then `last_closed_time[tf] = latest_closed_utc`
  (the watermark moves only *after* the write returned).
`writeOk = false` models `export_csv` raising: the exception propagates before
the watermark assignment, so the state is unchanged and the step aborts. -/
def watch_and_export_on_close_step (full_refresh_on_close : Bool)
    (fmt : Nat → String) (writeOk : Bool) (s : WatchState)
    (rates refreshBatch : List Candle) : WatchState × Bool :=
  if rates.length < 2 then (s, false)
  else
    let latest_closed_utc := latestTime rates
    if s.last_closed_time < latest_closed_utc then
      if writeOk then
        if full_refresh_on_close then
          ({ last_closed_time := latest_closed_utc,
             file := export_csv fmt (some s.file) refreshBatch false,
             writes := s.writes + 1,
             notifs := s.notifs + 1 }, false)
        else
          ({ last_closed_time := latest_closed_utc,
             file := export_csv fmt (some s.file) [rates.getLastD candle0] true,
             writes := s.writes + 1,
             notifs := s.notifs + 1 }, false)
      else (s, true)
    else (s, false)

/-- The watcher loop for one timeframe across a run of ticks, each tick
supplying the 2-bar batch and the potential refresh batch (all writes
succeeding). -/
def watch_and_export_on_close_run (full_refresh_on_close : Bool)
    (fmt : Nat → String) (s : WatchState)
    (ticks : List (List Candle × List Candle)) : WatchState :=
  ticks.foldl
    (fun s t =>
      (watch_and_export_on_close_step full_refresh_on_close fmt true s t.1 t.2).1) s

/-! ## Call-order traces for the fetchers -/

/-- External MetaTrader 5 interactions, in the order the code performs them. -/
inductive MtEv where
  | init
  | symbol_select
  | copy_rates_from_pos
  deriving DecidableEq, Repr

/-- `fetch_ohlcv` of `src/fetch_mt5_ohlcv.py` (lines 102–144):
`ensure_mt5_initialized()` runs first (line 121), then
`resolve_timeframe(timeframe)` (line 122) — which raises `ValueError` on an
unknown code — and only then `copy_rates_from_pos` (line 123).  Returns the
trace of external calls performed and the result (`none` models the raised
`ValueError`); `rates` is the batch the terminal would return. -/
def fetch_ohlcv_calls (timeframe : List Nat) (rates : List Candle) :
    List MtEv × Option (List Candle) :=
  match resolve_timeframe timeframe with
  | none => ([MtEv.init], none)
  | some _ => ([MtEv.init, MtEv.copy_rates_from_pos], some rates)

/-- `fetch_to_csv` of `src/fetch_ohlcv.py` (lines 185–199) up to the fetch:
`init_mt5()` runs first (line 193), then `fetch_ohlcv_mt5` resolves the
timeframe (line 127) before `symbol_select` (line 130) and
`copy_rates_from_pos` (line 134). -/
def fetch_to_csv_calls (timeframe : List Nat) (rates : List Candle) :
    List MtEv × Option (List Candle) :=
  match timeframe_to_mt5 timeframe with
  | none => ([MtEv.init], none)
  | some _ =>
      ([MtEv.init, MtEv.symbol_select, MtEv.copy_rates_from_pos],
       some rates)

/-! ## Helper lemmas on the string model -/

lemma upperChar_idem (n : Nat) : upperChar (upperChar n) = upperChar n := by
  simp only [upperChar]
  split
  · split <;> omega
  · rfl

lemma isPySpace_upperChar (n : Nat) : isPySpace (upperChar n) = isPySpace n := by
  simp only [upperChar, isPySpace]
  split
  · simp only [decide_eq_decide]; omega
  · rfl

lemma py_upper_idem (s : List Nat) : py_upper (py_upper s) = py_upper s := by
  induction s with
  | nil => rfl
  | cons a l ih =>
      simp only [py_upper, List.map_cons] at ih ⊢
      rw [upperChar_idem, ih]

lemma py_strip_py_upper (s : List Nat) :
    py_strip (py_upper s) = py_upper (py_strip s) := by
  have hcomp : (isPySpace ∘ upperChar) = isPySpace := funext isPySpace_upperChar
  simp only [py_strip, py_upper]
  rw [List.dropWhile_map, hcomp, ← List.map_reverse, List.dropWhile_map, hcomp,
    ← List.map_reverse]

/-! ## Claim theorems -/

/-- C10: timeframe code resolution is case-insensitive — for every string `t`,
`resolve_timeframe t` equals `resolve_timeframe` of `t.upper()`, and likewise
for `timeframe_to_mt5`; in addition `timeframe_to_mt5` strips surrounding
whitespace (`" h1 "` resolves like `"H1"`) and accepts reversed aliases
(`"1h"` resolves to the same constant as `"H1"`). -/
theorem timeframe_resolution_case_insensitive :
    (∀ t : List Nat, resolve_timeframe t = resolve_timeframe (py_upper t)) ∧
    (∀ t : List Nat, timeframe_to_mt5 t = timeframe_to_mt5 (py_upper t)) ∧
    timeframe_to_mt5 (pyCodes " h1 ") = timeframe_to_mt5 (pyCodes "H1") ∧
    timeframe_to_mt5 (pyCodes "1h") = timeframe_to_mt5 (pyCodes "H1") ∧
    timeframe_to_mt5 (pyCodes "H1") = some TIMEFRAME_H1 := by
  refine ⟨fun t => ?_, fun t => ?_, by decide, by decide, by decide⟩
  · simp only [resolve_timeframe, py_upper_idem]
  · simp only [timeframe_to_mt5, py_strip_py_upper, py_upper_idem]

/-- C5: `export_csv` with `append=True` on a path that does not exist produces
exactly the file that a full write (`append=False`) produces, header included;
on an existing path it appends the data rows without re-emitting the header. -/
theorem export_csv_append_missing_file_behaves_as_full :
    (∀ (fmt : Nat → String) (df : List Candle),
        export_csv fmt none df true = export_csv fmt none df false) ∧
    (∀ (fmt : Nat → String) (c : CsvFile) (df : List Candle),
        export_csv fmt (some c) df true = c ++ df.map (csvRowFO fmt)) ∧
    (∀ (fmt : Nat → String) (df : List Candle),
        export_csv fmt none df false = HEADER_FO :: df.map (csvRowFO fmt)) :=
  ⟨fun _ _ => rfl, fun _ _ _ => rfl, fun _ _ => rfl⟩

/-- C6 counterexample: the files produced by `src/fetch_ohlcv.py` carry the
header `time,open,high,low,close,tick_volume,real_volume,spread`
(real_volume before spread), not the claimed
`time,open,high,low,close,tick_volume,spread,real_volume`. -/
theorem csv_header_exact_counterexample :
    (export_csv (fun _ => "t") none [candle0] false).head? = some HEADER_FO ∧
    String.intercalate "," HEADER_FO =
      "time,open,high,low,close,tick_volume,real_volume,spread" ∧
    String.intercalate "," HEADER_FO ≠
      "time,open,high,low,close,tick_volume,spread,real_volume" :=
  ⟨rfl, rfl, by decide⟩

/-- C6 (amended): `export_to_csv` (src/fetch_mt5_ohlcv.py) emits exactly the
header `time,open,high,low,close,tick_volume,spread,real_volume`, while the
files of `src/fetch_ohlcv.py` use the order
`time,open,high,low,close,tick_volume,real_volume,spread`; in both variants a
write is the header followed by one data row per candle, every row following
its deployment's fixed column order (same row shape as the header). -/
theorem csv_layout_per_variant :
    String.intercalate "," HEADER_MT5 =
      "time,open,high,low,close,tick_volume,spread,real_volume" ∧
    String.intercalate "," HEADER_FO =
      "time,open,high,low,close,tick_volume,real_volume,spread" ∧
    (∀ (fmt : Nat → String) (old : Option CsvFile) (records : List Candle),
      export_to_csv fmt old records = HEADER_MT5 :: records.map (csvRowMT5 fmt) ∧
      (export_to_csv fmt old records).length = records.length + 1) ∧
    (∀ (fmt : Nat → String) (old : Option CsvFile) (df : List Candle),
      export_csv fmt old df false = HEADER_FO :: df.map (csvRowFO fmt) ∧
      (export_csv fmt old df false).length = df.length + 1) ∧
    (∀ (fmt : Nat → String) (r : Candle),
      (csvRowMT5 fmt r).length = HEADER_MT5.length ∧
      (csvRowFO fmt r).length = HEADER_FO.length) := by
  refine ⟨rfl, rfl, fun fmt old records => ⟨rfl, by simp [export_to_csv]⟩,
    fun fmt old df => ?_, fun fmt r => ⟨rfl, rfl⟩⟩
  cases old <;> exact ⟨rfl, by simp [export_csv]⟩

/-- C7 counterexample: a full-refresh write that fails immediately after
opening the file does not leave the previous content in place — the target was
truncated in place (no temporary file, no rename), so the old rows are gone. -/
theorem full_refresh_atomic_counterexample :
    export_to_csv_fail (fun _ => "t") (some [["old"]]) [candle0] 0 ≠ [["old"]] ∧
    export_csv_fail (fun _ => "t") (some [["old"]]) [candle0] 0 ≠ [["old"]] :=
  ⟨by decide, by decide⟩

/-- C7 (amended): both full-refresh sinks stream directly into the target file
opened in truncating write mode; a failure after `k` data rows leaves the
header plus the first `k` rows — independent of the previous content, which is
lost — and when `k` is smaller than the record count the resulting file is not
the complete export.  No temporary-file-then-rename step exists. -/
theorem full_refresh_failure_truncates :
    (∀ (fmt : Nat → String) (old : Option CsvFile) (records : List Candle) (k : Nat),
      export_to_csv_fail fmt old records k =
        HEADER_MT5 :: (records.take k).map (csvRowMT5 fmt)) ∧
    (∀ (fmt : Nat → String) (old₁ old₂ : Option CsvFile) (records : List Candle)
        (k : Nat),
      export_to_csv_fail fmt old₁ records k = export_to_csv_fail fmt old₂ records k) ∧
    (∀ (fmt : Nat → String) (old : Option CsvFile) (records : List Candle) (k : Nat),
      k < records.length →
      export_to_csv_fail fmt old records k ≠ export_to_csv fmt old records) ∧
    (∀ (fmt : Nat → String) (old : Option CsvFile) (df : List Candle) (k : Nat),
      k < df.length →
      export_csv_fail fmt old df k ≠ export_csv fmt old df false) := by
  refine ⟨fun fmt old records k => rfl, fun fmt old₁ old₂ records k => rfl,
    fun fmt old records k hk heq => ?_, fun fmt old df k hk heq => ?_⟩
  · have hlen := congrArg List.length heq
    simp [export_to_csv_fail, export_to_csv] at hlen
    omega
  · have hlen := congrArg List.length heq
    cases old <;> simp [export_csv_fail, export_csv] at hlen <;> omega

/-- C7 witness for `full_refresh_failure_truncates`: with one candle and a
failure before any data row was written, the surviving file is not the full
export. -/
theorem full_refresh_failure_truncates_witness :
    export_to_csv_fail (fun _ => "t") none [candle0] 0 ≠
      export_to_csv (fun _ => "t") none [candle0] :=
  full_refresh_failure_truncates.2.2.1 (fun _ => "t") none [candle0] 0 (by decide)

/-- C8 counterexample: calling `fetch_ohlcv` (src/fetch_mt5_ohlcv.py) with the
unknown code `"XX"` raises the resolution error, but the terminal was already
initialised first — the failure does not precede every data-source
interaction. -/
theorem config_error_before_init_counterexample :
    (fetch_ohlcv_calls (pyCodes "XX") []).2 = none ∧
    (fetch_ohlcv_calls (pyCodes "XX") []).1 ≠ [] ∧
    MtEv.init ∈ (fetch_ohlcv_calls (pyCodes "XX") []).1 := by
  refine ⟨?_, ?_, ?_⟩ <;> decide

/-- C8 (amended): an unrecognized timeframe code makes the fetch fail with the
resolution-time `ValueError`, before any symbol selection or rates request;
but terminal initialisation precedes the resolution check
(`ensure_mt5_initialized` on line 121 of `fetch_ohlcv`; `init_mt5` on line 193
of `fetch_to_csv`), so the failure is after terminal init. -/
theorem unknown_timeframe_fails_before_data_calls :
    (∀ (tf : List Nat) (rates : List Candle),
      resolve_timeframe tf = none →
      fetch_ohlcv_calls tf rates = ([MtEv.init], none)) ∧
    (∀ (tf : List Nat) (rates : List Candle),
      timeframe_to_mt5 tf = none →
      fetch_to_csv_calls tf rates = ([MtEv.init], none)) ∧
    (∀ (tf : List Nat) (rates : List Candle),
      (fetch_ohlcv_calls tf rates).2 = none →
      MtEv.copy_rates_from_pos ∉ (fetch_ohlcv_calls tf rates).1 ∧
      MtEv.symbol_select ∉ (fetch_ohlcv_calls tf rates).1) ∧
    (∀ (tf : List Nat) (rates : List Candle),
      (fetch_to_csv_calls tf rates).2 = none →
      MtEv.copy_rates_from_pos ∉ (fetch_to_csv_calls tf rates).1 ∧
      MtEv.symbol_select ∉ (fetch_to_csv_calls tf rates).1) := by
  refine ⟨fun tf rates h => ?_, fun tf rates h => ?_,
    fun tf rates => ?_, fun tf rates => ?_⟩
  · simp [fetch_ohlcv_calls, h]
  · simp [fetch_to_csv_calls, h]
  · unfold fetch_ohlcv_calls
    cases resolve_timeframe tf <;> simp
  · unfold fetch_to_csv_calls
    cases timeframe_to_mt5 tf <;> simp

/-- C8 witness for `unknown_timeframe_fails_before_data_calls` at the concrete
unknown code `"XX"`. -/
theorem unknown_timeframe_fails_before_data_calls_witness :
    fetch_ohlcv_calls (pyCodes "XX") [] = ([MtEv.init], none) ∧
    fetch_to_csv_calls (pyCodes "XX") [] = ([MtEv.init], none) :=
  ⟨unknown_timeframe_fails_before_data_calls.1 (pyCodes "XX") [] (by decide),
   unknown_timeframe_fails_before_data_calls.2.1 (pyCodes "XX") [] (by decide)⟩

/-- C9 counterexample: `monitor_timeframes` only skips an *empty* fetch
result; a batch with a single candle (fewer than 2) is processed normally —
here it performs a write, a notification and a watermark change. -/
theorem short_batch_noop_counterexample :
    ([{ candle0 with time := 10 }] : List Candle).length < 2 ∧
    (monitor_timeframes_step (fun _ => "t") true ⟨some 5, none, 0, 0⟩
        [{ candle0 with time := 10 }]).1.writes = 1 ∧
    (monitor_timeframes_step (fun _ => "t") true ⟨some 5, none, 0, 0⟩
        [{ candle0 with time := 10 }]).1.notifs = 1 ∧
    (monitor_timeframes_step (fun _ => "t") true ⟨some 5, none, 0, 0⟩
        [{ candle0 with time := 10 }]).1.last_times = some 10 :=
  ⟨by decide, rfl, rfl, rfl⟩

/-- C9 (amended): `watch_and_export_on_close` treats a fetch of fewer than 2
candles as a per-target no-op (no write, no notification, no watermark change,
no error), but `monitor_timeframes` only no-ops on an *empty* result: a
single-candle batch is processed as a normal poll. -/
theorem insufficient_history_noop_per_variant :
    (∀ (fr : Bool) (fmt : Nat → String) (ok : Bool) (s : WatchState)
        (rates rb : List Candle),
      rates.length < 2 →
      watch_and_export_on_close_step fr fmt ok s rates rb = (s, false)) ∧
    (∀ (fmt : Nat → String) (ok : Bool) (s : MonState),
      monitor_timeframes_step fmt ok s [] = (s, false)) ∧
    (∀ (fmt : Nat → String) (s : MonState) (c : Candle),
      s.last_times ≠ some c.time →
      (monitor_timeframes_step fmt true s [c]).1.writes = s.writes + 1) := by
  refine ⟨fun fr fmt ok s rates rb h => ?_, fun fmt ok s => rfl,
    fun fmt s c h => ?_⟩
  · simp [watch_and_export_on_close_step, h]
  · simp [monitor_timeframes_step, latestTime, h]

/-- C9 witness for `insufficient_history_noop_per_variant` on concrete
inputs: a 1-candle batch is skipped by the watcher and processed by the
monitor. -/
theorem insufficient_history_noop_per_variant_witness :
    watch_and_export_on_close_step false (fun _ => "t") true ⟨5, [], 0, 0⟩
        [candle0] [] = (⟨5, [], 0, 0⟩, false) ∧
    (monitor_timeframes_step (fun _ => "t") true ⟨some 5, none, 0, 0⟩
        [{ candle0 with time := 10 }]).1.writes = 0 + 1 :=
  ⟨insufficient_history_noop_per_variant.1 false (fun _ => "t") true
      ⟨5, [], 0, 0⟩ [candle0] [] (by decide),
   insufficient_history_noop_per_variant.2.2 (fun _ => "t") ⟨some 5, none, 0, 0⟩
      { candle0 with time := 10 } (by decide)⟩

/-- C2 counterexample: a poll of `monitor_timeframes` whose latest candle is
strictly *older* than the watermark (open_time 50 against watermark 100) is
not a no-op: it writes, notifies, and moves the watermark backwards. -/
theorem stale_latest_noop_counterexample :
    latestTime [{ candle0 with time := 50 }] ≤ 100 ∧
    (monitor_timeframes_step (fun _ => "t") true ⟨some 100, none, 0, 0⟩
        [{ candle0 with time := 50 }]).1.writes = 1 ∧
    (monitor_timeframes_step (fun _ => "t") true ⟨some 100, none, 0, 0⟩
        [{ candle0 with time := 50 }]).1.notifs = 1 ∧
    (monitor_timeframes_step (fun _ => "t") true ⟨some 100, none, 0, 0⟩
        [{ candle0 with time := 50 }]).1.last_times = some 50 :=
  ⟨by decide, rfl, rfl, rfl⟩

/-- C2 (amended): `watch_and_export_on_close` is a no-op (no write, no
notification, watermark unchanged) whenever `latest.open_time ≤ watermark`;
`monitor_timeframes` is a no-op exactly when `latest.open_time` *equals* its
stored watermark — which still makes a second poll of the same closed candle
a no-op in both variants, but a strictly older latest candle triggers a write
in `monitor_timeframes`. -/
theorem stale_latest_noop_per_variant :
    (∀ (fr : Bool) (fmt : Nat → String) (ok : Bool) (s : WatchState)
        (rates rb : List Candle),
      latestTime rates ≤ s.last_closed_time →
      watch_and_export_on_close_step fr fmt ok s rates rb = (s, false)) ∧
    (∀ (fmt : Nat → String) (ok : Bool) (s : MonState) (records : List Candle),
      s.last_times = some (latestTime records) →
      monitor_timeframes_step fmt ok s records = (s, false)) := by
  constructor
  · intro fr fmt ok s rates rb h
    unfold watch_and_export_on_close_step
    split
    · rfl
    · rw [if_neg (by omega)]
  · intro fmt ok s records h
    unfold monitor_timeframes_step
    split
    · rfl
    · rw [if_pos h]

/-- C2 witness for `stale_latest_noop_per_variant`: polling the very candle
already recorded in the watermark is a no-op in both variants. -/
theorem stale_latest_noop_per_variant_witness :
    watch_and_export_on_close_step false (fun _ => "t") true ⟨100, [], 0, 0⟩
        [{ candle0 with time := 90 }, { candle0 with time := 100 }] [] =
      (⟨100, [], 0, 0⟩, false) ∧
    monitor_timeframes_step (fun _ => "t") true ⟨some 100, none, 0, 0⟩
        [{ candle0 with time := 100 }] = (⟨some 100, none, 0, 0⟩, false) :=
  ⟨stale_latest_noop_per_variant.1 false (fun _ => "t") true ⟨100, [], 0, 0⟩
      [{ candle0 with time := 90 }, { candle0 with time := 100 }] [] (by decide),
   stale_latest_noop_per_variant.2 (fun _ => "t") true ⟨some 100, none, 0, 0⟩
      [{ candle0 with time := 100 }] (by decide)⟩

/-- C3 counterexample: in `monitor_timeframes` the watermark assignment
(line 205) precedes the `export_to_csv` call (line 207); when the write
raises, the watermark has already advanced to the new `open_time` even though
no write happened, so the candle would not be re-detected. -/
theorem watermark_after_write_counterexample :
    ((monitor_timeframes_step (fun _ => "t") false ⟨some 100, none, 0, 0⟩
        [{ candle0 with time := 200 }]).1).last_times = some 200 ∧
    ((monitor_timeframes_step (fun _ => "t") false ⟨some 100, none, 0, 0⟩
        [{ candle0 with time := 200 }]).1).writes = 0 ∧
    (monitor_timeframes_step (fun _ => "t") false ⟨some 100, none, 0, 0⟩
        [{ candle0 with time := 200 }]).2 = true :=
  ⟨rfl, rfl, rfl⟩

/-- C3 (amended): in `watch_and_export_on_close` the watermark is assigned
only after `export_csv` returns — on a raising write the whole state,
watermark included, is unchanged, so the candle is re-detected; in
`monitor_timeframes` the watermark is assigned *before* `export_to_csv`, so a
raising write still leaves the watermark advanced to `latest.open_time`. -/
theorem watermark_update_order_per_variant :
    (∀ (fr : Bool) (fmt : Nat → String) (s : WatchState) (rates rb : List Candle),
      (watch_and_export_on_close_step fr fmt false s rates rb).1 = s) ∧
    (∀ (fr : Bool) (fmt : Nat → String) (s : WatchState) (rates rb : List Candle),
      2 ≤ rates.length → s.last_closed_time < latestTime rates →
      ((watch_and_export_on_close_step fr fmt true s rates rb).1).last_closed_time =
        latestTime rates) ∧
    (∀ (fmt : Nat → String) (s : MonState) (records : List Candle),
      records ≠ [] → s.last_times ≠ some (latestTime records) →
      ((monitor_timeframes_step fmt false s records).1).last_times =
          some (latestTime records) ∧
        ((monitor_timeframes_step fmt false s records).1).writes = s.writes ∧
        (monitor_timeframes_step fmt false s records).2 = true) := by
  refine ⟨fun fr fmt s rates rb => ?_, fun fr fmt s rates rb h2 hlt => ?_,
    fun fmt s records hne hnew => ?_⟩
  · unfold watch_and_export_on_close_step
    split
    · rfl
    · split
      · simp_all
      · by_cases hlt : s.last_closed_time < latestTime rates <;> simp [hlt]
  · unfold watch_and_export_on_close_step
    rw [if_neg (by omega), if_pos hlt]
    cases fr <;> rfl
  · unfold monitor_timeframes_step
    rw [if_neg hne, if_neg hnew]
    exact ⟨rfl, rfl, rfl⟩

/-- C3 witness for `watermark_update_order_per_variant` on concrete inputs:
a successful triggered poll of the watcher advances the watermark, and a
failing write in the monitor has already advanced it. -/
theorem watermark_update_order_per_variant_witness :
    (watch_and_export_on_close_step false (fun _ => "t") false ⟨100, [], 0, 0⟩
        [{ candle0 with time := 150 }, { candle0 with time := 200 }] []).1 =
      ⟨100, [], 0, 0⟩ ∧
    ((watch_and_export_on_close_step false (fun _ => "t") true ⟨100, [], 0, 0⟩
        [{ candle0 with time := 150 }, { candle0 with time := 200 }] []).1).last_closed_time =
      latestTime [{ candle0 with time := 150 }, { candle0 with time := 200 }] ∧
    ((monitor_timeframes_step (fun _ => "t") false ⟨some 100, none, 0, 0⟩
        [{ candle0 with time := 200 }]).1).last_times =
      some (latestTime [{ candle0 with time := 200 }]) :=
  ⟨watermark_update_order_per_variant.1 false (fun _ => "t") ⟨100, [], 0, 0⟩
      [{ candle0 with time := 150 }, { candle0 with time := 200 }] [],
   watermark_update_order_per_variant.2.1 false (fun _ => "t") ⟨100, [], 0, 0⟩
      [{ candle0 with time := 150 }, { candle0 with time := 200 }] []
      (by decide) (by decide),
   (watermark_update_order_per_variant.2.2 (fun _ => "t") ⟨some 100, none, 0, 0⟩
      [{ candle0 with time := 200 }] (by decide) (by decide)).1⟩

/-- C4 counterexample: on the first poll of `monitor_timeframes` for a target
with no output file (fresh state: no watermark, no file), the seed write *does*
emit the same close-event notification as any later write. -/
theorem seed_no_notification_counterexample :
    (monitor_timeframes_step (fun _ => "t") true ⟨none, none, 0, 0⟩
        [candle0]).1.notifs = 1 ∧
    (monitor_timeframes_step (fun _ => "t") true ⟨none, none, 0, 0⟩
        [candle0]).1.writes = 1 :=
  ⟨rfl, rfl⟩

/-- C4 (amended): in `watch_and_export_on_close` the startup phase for a
target whose output file does not exist performs exactly one full export
(header plus the fetched window, at most `bars_to_keep` rows when the fetch
returns at most that many), seeds the watermark from the latest closed candle
of the 2-bar seed fetch, and emits no close-event notification; in
`monitor_timeframes` the first poll also performs exactly one full export and
seeds the watermark from the latest record, but it emits its update
notification for this seed write. -/
theorem seed_behavior_per_variant :
    (∀ (fmt : Nat → String) (df0 seedBatch : List Candle) (bars : Nat),
      (watch_and_export_on_close_seed fmt none df0 seedBatch).full_exports = 1 ∧
      (watch_and_export_on_close_seed fmt none df0 seedBatch).notifs = 0 ∧
      (watch_and_export_on_close_seed fmt none df0 seedBatch).file =
        HEADER_FO :: df0.map (csvRowFO fmt) ∧
      (df0.length ≤ bars →
        (watch_and_export_on_close_seed fmt none df0 seedBatch).file.length ≤
          bars + 1) ∧
      (watch_and_export_on_close_seed fmt none df0 seedBatch).last_closed_time =
        latestTime seedBatch) ∧
    (∀ (fmt : Nat → String) (records : List Candle), records ≠ [] →
      (monitor_timeframes_step fmt true ⟨none, none, 0, 0⟩ records).1.writes = 1 ∧
      (monitor_timeframes_step fmt true ⟨none, none, 0, 0⟩ records).1.notifs = 1 ∧
      (monitor_timeframes_step fmt true ⟨none, none, 0, 0⟩ records).1.file =
        some (HEADER_MT5 :: records.map (csvRowMT5 fmt)) ∧
      (monitor_timeframes_step fmt true ⟨none, none, 0, 0⟩ records).1.last_times =
        some (latestTime records)) := by
  constructor
  · intro fmt df0 seedBatch bars
    refine ⟨rfl, rfl, rfl, fun h => ?_, rfl⟩
    simp [watch_and_export_on_close_seed, export_csv]
    omega
  · intro fmt records hne
    unfold monitor_timeframes_step
    rw [if_neg hne]
    exact ⟨rfl, rfl, rfl, rfl⟩

/-- C4 witness for `seed_behavior_per_variant` on concrete inputs. -/
theorem seed_behavior_per_variant_witness :
    (watch_and_export_on_close_seed (fun _ => "t") none [candle0]
        [{ candle0 with time := 60 }]).full_exports = 1 ∧
    (watch_and_export_on_close_seed (fun _ => "t") none [candle0]
        [{ candle0 with time := 60 }]).notifs = 0 ∧
    (watch_and_export_on_close_seed (fun _ => "t") none [candle0]
        [{ candle0 with time := 60 }]).last_closed_time = 60 ∧
    (monitor_timeframes_step (fun _ => "t") true ⟨none, none, 0, 0⟩
        [{ candle0 with time := 60 }]).1.notifs = 1 :=
  ⟨(seed_behavior_per_variant.1 (fun _ => "t") [candle0]
      [{ candle0 with time := 60 }] 1).1,
   (seed_behavior_per_variant.1 (fun _ => "t") [candle0]
      [{ candle0 with time := 60 }] 1).2.1,
   (seed_behavior_per_variant.1 (fun _ => "t") [candle0]
      [{ candle0 with time := 60 }] 1).2.2.2.2,
   (seed_behavior_per_variant.2 (fun _ => "t")
      [{ candle0 with time := 60 }] (by decide)).2.1⟩

/-! ## Run invariants for C1 -/

lemma getLast?_cons_eq {α : Type} (a : α) (l : List α) :
    (a :: l).getLast? = some (l.getLastD a) := by
  induction l generalizing a with
  | nil => rfl
  | cons b l ih =>
      rw [List.getLastD_cons]
      rw [show (a :: b :: l).getLast? = (b :: l).getLast? from rfl]
      exact ih b

lemma monitor_step_new_candle (fmt : Nat → String) (s : MonState)
    (b : List Candle) (hb : b ≠ [])
    (hnew : s.last_times ≠ some (latestTime b)) :
    (monitor_timeframes_step fmt true s b).1 =
      { last_times := some (latestTime b),
        file := some (export_to_csv fmt s.file b),
        writes := s.writes + 1, notifs := s.notifs + 1 } := by
  unfold monitor_timeframes_step
  rw [if_neg hb, if_neg hnew]
  rfl

lemma watch_step_new_candle (fr : Bool) (fmt : Nat → String) (s : WatchState)
    (rates rb : List Candle) (h2 : 2 ≤ rates.length)
    (hlt : s.last_closed_time < latestTime rates) :
    ∃ f, (watch_and_export_on_close_step fr fmt true s rates rb).1 =
      { last_closed_time := latestTime rates, file := f,
        writes := s.writes + 1, notifs := s.notifs + 1 } := by
  unfold watch_and_export_on_close_step
  rw [if_neg (by omega), if_pos hlt]
  cases fr
  · exact ⟨_, rfl⟩
  · exact ⟨_, rfl⟩

lemma monitor_run_invariant (fmt : Nat → String) :
    ∀ (batches : List (List Candle)) (s : MonState) (w : Nat),
      s.last_times = some w →
      (∀ b ∈ batches, b ≠ []) →
      List.Chain (· < ·) w (batches.map latestTime) →
      (monitor_timeframes_run fmt s batches).writes = s.writes + batches.length ∧
      (monitor_timeframes_run fmt s batches).notifs = s.notifs + batches.length ∧
      (monitor_timeframes_run fmt s batches).last_times =
        some ((batches.map latestTime).getLastD w) := by
  intro batches
  induction batches with
  | nil =>
      intro s w hw hne hch
      exact ⟨rfl, rfl, hw⟩
  | cons b bs ih =>
      intro s w hw hne hch
      rw [List.map_cons, List.chain_cons] at hch
      have hb : b ≠ [] := hne b (List.mem_cons_self b bs)
      have hnew : s.last_times ≠ some (latestTime b) := by
        rw [hw]
        intro hcontra
        have hwb : w = latestTime b := by injection hcontra
        omega
      have hrun : monitor_timeframes_run fmt s (b :: bs) =
          monitor_timeframes_run fmt (monitor_timeframes_step fmt true s b).1 bs := rfl
      rw [hrun, monitor_step_new_candle fmt s b hb hnew]
      have H := ih { last_times := some (latestTime b),
                     file := some (export_to_csv fmt s.file b),
                     writes := s.writes + 1, notifs := s.notifs + 1 }
        (latestTime b) rfl (fun x hx => hne x (List.mem_cons_of_mem b hx)) hch.2
      refine ⟨?_, ?_, ?_⟩
      · rw [H.1]; simp; omega
      · rw [H.2.1]; simp; omega
      · rw [H.2.2, List.map_cons, List.getLastD_cons]

lemma watch_run_invariant (fr : Bool) (fmt : Nat → String) :
    ∀ (ticks : List (List Candle × List Candle)) (s : WatchState),
      (∀ t ∈ ticks, 2 ≤ t.1.length) →
      List.Chain (· < ·) s.last_closed_time (ticks.map fun t => latestTime t.1) →
      (watch_and_export_on_close_run fr fmt s ticks).writes =
          s.writes + ticks.length ∧
      (watch_and_export_on_close_run fr fmt s ticks).notifs =
          s.notifs + ticks.length ∧
      (watch_and_export_on_close_run fr fmt s ticks).last_closed_time =
        (ticks.map fun t => latestTime t.1).getLastD s.last_closed_time := by
  intro ticks
  induction ticks with
  | nil =>
      intro s hlen hch
      exact ⟨rfl, rfl, rfl⟩
  | cons t ts ih =>
      intro s hlen hch
      rw [List.map_cons, List.chain_cons] at hch
      obtain ⟨f, hstep⟩ := watch_step_new_candle fr fmt s t.1 t.2
        (hlen t (List.mem_cons_self t ts)) hch.1
      have hrun : watch_and_export_on_close_run fr fmt s (t :: ts) =
          watch_and_export_on_close_run fr fmt
            (watch_and_export_on_close_step fr fmt true s t.1 t.2).1 ts := rfl
      rw [hrun, hstep]
      have H := ih { last_closed_time := latestTime t.1, file := f,
                     writes := s.writes + 1, notifs := s.notifs + 1 }
        (fun x hx => hlen x (List.mem_cons_of_mem t hx)) hch.2
      refine ⟨?_, ?_, ?_⟩
      · rw [H.1]; simp; omega
      · rw [H.2.1]; simp; omega
      · rw [H.2.2, List.map_cons, List.getLastD_cons]

/-- C1: driven by a sequence of fetched batches whose latest open times are
strictly increasing across ticks (for the watcher: strictly above its seeded
watermark), each newly observed open time causes exactly one write and exactly
one notification, and after `N` ticks the per-timeframe watermark
(`last_times[tf]` in `monitor_timeframes`, `last_closed_time[tf]` in
`watch_and_export_on_close`) equals the open time of the most recent candle
observed across all ticks. -/
theorem one_write_and_notification_per_new_candle :
    (∀ (fmt : Nat → String) (batches : List (List Candle)),
      (∀ b ∈ batches, b ≠ []) →
      List.Chain' (· < ·) (batches.map latestTime) →
      (monitor_timeframes_run fmt ⟨none, none, 0, 0⟩ batches).writes =
          batches.length ∧
      (monitor_timeframes_run fmt ⟨none, none, 0, 0⟩ batches).notifs =
          batches.length ∧
      (monitor_timeframes_run fmt ⟨none, none, 0, 0⟩ batches).last_times =
        (batches.map latestTime).getLast?) ∧
    (∀ (fr : Bool) (fmt : Nat → String) (w0 : Nat) (file0 : CsvFile)
        (ticks : List (List Candle × List Candle)),
      (∀ t ∈ ticks, 2 ≤ t.1.length) →
      List.Chain (· < ·) w0 (ticks.map fun t => latestTime t.1) →
      (watch_and_export_on_close_run fr fmt ⟨w0, file0, 0, 0⟩ ticks).writes =
          ticks.length ∧
      (watch_and_export_on_close_run fr fmt ⟨w0, file0, 0, 0⟩ ticks).notifs =
          ticks.length ∧
      (watch_and_export_on_close_run fr fmt ⟨w0, file0, 0, 0⟩ ticks).last_closed_time =
        (ticks.map fun t => latestTime t.1).getLastD w0) := by
  constructor
  · intro fmt batches hne hch
    cases batches with
    | nil => exact ⟨rfl, rfl, rfl⟩
    | cons b bs =>
        rw [List.map_cons] at hch
        have hb : b ≠ [] := hne b (List.mem_cons_self b bs)
        have hnew : (⟨none, none, 0, 0⟩ : MonState).last_times ≠
            some (latestTime b) := by simp
        have hrun : monitor_timeframes_run fmt ⟨none, none, 0, 0⟩ (b :: bs) =
            monitor_timeframes_run fmt
              (monitor_timeframes_step fmt true ⟨none, none, 0, 0⟩ b).1 bs := rfl
        rw [hrun, monitor_step_new_candle fmt ⟨none, none, 0, 0⟩ b hb hnew]
        have H := monitor_run_invariant fmt bs
          { last_times := some (latestTime b),
            file := some (export_to_csv fmt none b),
            writes := 0 + 1, notifs := 0 + 1 }
          (latestTime b) rfl (fun x hx => hne x (List.mem_cons_of_mem b hx)) hch
        refine ⟨?_, ?_, ?_⟩
        · rw [H.1]; simp; omega
        · rw [H.2.1]; simp; omega
        · rw [H.2.2, List.map_cons, getLast?_cons_eq]
  · intro fr fmt w0 file0 ticks hlen hch
    simpa using watch_run_invariant fr fmt ticks ⟨w0, file0, 0, 0⟩ hlen hch

/-- C1 witness for `one_write_and_notification_per_new_candle` on a concrete
two-tick monitor run and a one-tick watcher run. -/
theorem one_write_and_notification_per_new_candle_witness :
    (monitor_timeframes_run (fun _ => "t") ⟨none, none, 0, 0⟩
        [[{ candle0 with time := 1 }], [{ candle0 with time := 2 }]]).writes = 2 ∧
    (monitor_timeframes_run (fun _ => "t") ⟨none, none, 0, 0⟩
        [[{ candle0 with time := 1 }], [{ candle0 with time := 2 }]]).last_times =
      ([[{ candle0 with time := 1 }], [{ candle0 with time := 2 }]].map
        latestTime).getLast? ∧
    (watch_and_export_on_close_run false (fun _ => "t") ⟨0, [], 0, 0⟩
        [([{ candle0 with time := 1 }, { candle0 with time := 2 }], [])]).writes = 1 :=
  have hmon := one_write_and_notification_per_new_candle.1 (fun _ => "t")
    [[{ candle0 with time := 1 }], [{ candle0 with time := 2 }]]
    (by decide)
    (List.Chain.cons (by decide) (List.Chain.nil))
  have hwatch := one_write_and_notification_per_new_candle.2 false (fun _ => "t")
    0 [] [([{ candle0 with time := 1 }, { candle0 with time := 2 }], [])]
    (by decide)
    (List.Chain.cons (by decide) (List.Chain.nil))
  ⟨hmon.1, hmon.2.2, hwatch.1⟩
